import Mathlib

/-!
A shallow embedding of the robotic lawnmower simulation engine
(`python/lawnmower_sim.py`) together with proofs about its behaviour.

The engine is a single mutable object; we model it as a structure
`LawnmowerSim` and translate each method into a state-passing function:
`LawnmowerSim.init` for `__init__`, `LawnmowerSim.move` for `move`
(returning the new state together with the boolean result), and
`LawnmowerSim.run` / `LawnmowerSim.execute_path` for `execute_path`.
Python dicts used as insertion-ordered sets (`valid_rocks`,
`visited_cells`) are modelled as duplicate-free lists of keys in
insertion order.  The message log (`self.messages` / `log`) carries no
state the engine reads back, so it is omitted from the model.
-/

namespace Lawnmower

/-- A grid coordinate `(row, col)`, matching the Python `[y, x]` pairs. -/
abbrev Coord := Int × Int

/-- The bounds check `0 <= row < grid_height and 0 <= col < grid_width`
used by `__init__` and `move`. -/
def inBounds (gh gw : Int) (p : Coord) : Bool :=
  decide (0 ≤ p.1) && decide (p.1 < gh) && decide (0 ≤ p.2) && decide (p.2 < gw)

/-- Key insertion into an insertion-ordered Python dict (values are all
`True`, so only the ordered key list matters): a key already present keeps
its original slot, a new key is appended at the end. -/
def dictInsert (k : Coord) (d : List Coord) : List Coord :=
  if k ∈ d then d else d ++ [k]

/-- The engine state: the mutable attributes of a `LawnmowerSim` object. -/
structure LawnmowerSim where
  test_name : String
  grid_height : Int
  grid_width : Int
  rock_locations : List Coord
  valid_rocks : List Coord
  total_grass_squares : Int
  uncut_remaining : Int
  all_grass_cut : Bool
  start_pos : Coord
  last_pos : Coord
  visited_cells : List Coord
  number_visited_cells : Nat
  pos_history : List Coord
  did_mower_crash : Bool
  crash_reason : String
deriving Repr, DecidableEq

/-- The `__init__` loop over `rock_locations`: an in-bounds rock becomes a
key of the `valid_rocks` dict, an out-of-bounds one is only logged. -/
def addRocks (gh gw : Int) (acc : List Coord) : List Coord → List Coord
  | [] => acc
  | r :: rs => addRocks gh gw (if inBounds gh gw r then dictInsert r acc else acc) rs

/-- `valid_rocks` as computed by `__init__`, starting from the empty dict. -/
def buildValidRocks (gh gw : Int) (rocks : List Coord) : List Coord :=
  addRocks gh gw [] rocks

/-- `LawnmowerSim.__init__`.  Note two faithful quirks of the source:
`uncut_remaining` starts at `total_grass_squares - 1` unconditionally
("start pos is always cut"), and `visited_cells` is seeded with the raw
`start_pos` argument, not with the validated `self.start_pos`. -/
def LawnmowerSim.init (test_name : String) (grid_height grid_width : Int)
    (rock_locations : List Coord) (start_pos : Coord) : LawnmowerSim :=
  let vr := buildValidRocks grid_height grid_width rock_locations
  let total : Int := grid_width * grid_height - (vr.length : Int)
  let sp := if inBounds grid_height grid_width start_pos then start_pos
            else ((0 : Int), (0 : Int))
  { test_name := test_name
    grid_height := grid_height
    grid_width := grid_width
    rock_locations := rock_locations
    valid_rocks := vr
    total_grass_squares := total
    uncut_remaining := total - 1
    all_grass_cut := false
    start_pos := sp
    last_pos := sp
    visited_cells := [start_pos]
    number_visited_cells := 1
    pos_history := [sp]
    did_mower_crash := false
    crash_reason := "None" }

/-- The `move` dispatch on the four direction strings: the unit offset
applied to the current position.  An unrecognized token falls through all
four branches and leaves the position unchanged. -/
def moveOffset (m : String) (p : Coord) : Coord :=
  if m = "up" then (p.1 - 1, p.2)
  else if m = "down" then (p.1 + 1, p.2)
  else if m = "left" then (p.1, p.2 - 1)
  else if m = "right" then (p.1, p.2 + 1)
  else p

/-- `LawnmowerSim.move`: update `last_pos`, append the candidate to
`pos_history` unconditionally, then classify: rock crash, fence crash, or
a legal move that updates the visited dict and the coverage counters.
Returns the new state and the boolean result (`False` exactly when
`did_mower_crash` is set at the end of the call). -/
def LawnmowerSim.move (s : LawnmowerSim) (m : String) : LawnmowerSim × Bool :=
  let np := moveOffset m s.last_pos
  let s1 : LawnmowerSim := { s with last_pos := np, pos_history := s.pos_history ++ [np] }
  let s2 : LawnmowerSim :=
    if np ∈ s1.valid_rocks then
      { s1 with did_mower_crash := true, crash_reason := "Crashed into Rock" }
    else if !(inBounds s1.grid_height s1.grid_width np) then
      { s1 with did_mower_crash := true, crash_reason := "Crashed into Fence" }
    else
      let vc := dictInsert np s1.visited_cells
      { s1 with visited_cells := vc
                number_visited_cells := vc.length
                uncut_remaining := s1.total_grass_squares - (vc.length : Int)
                all_grass_cut := decide (s1.total_grass_squares - (vc.length : Int) = 0) }
  (s2, !s2.did_mower_crash)

/-- Python's `str.lower()` on a move token, modelled characterwise. -/
def pyLower (s : String) : String := ⟨s.data.map Char.toLower⟩

/-- The loop of `execute_path`: lower-case each token, apply `move`, and
stop at the first move that returns `False`. -/
def LawnmowerSim.run (s : LawnmowerSim) : List String → LawnmowerSim
  | [] => s
  | m :: ms =>
    let r := s.move (pyLower m)
    if r.2 then r.1.run ms else r.1

/-- The number of `move` calls the `execute_path` loop performs on a path:
every move up to and including the first failing one. -/
def LawnmowerSim.movesExecuted (s : LawnmowerSim) : List String → Nat
  | [] => 0
  | m :: ms =>
    let r := s.move (pyLower m)
    if r.2 then 1 + r.1.movesExecuted ms else 1

/-- The result record (`sim_status`) built at the end of `execute_path`.
`valid_rocks` and `visited_cells` are rendered as their ordered key
lists, exactly as `list(dict.keys())` does. -/
structure SimStatus where
  test_name : String
  grid_width : Int
  grid_height : Int
  rock_locations : List Coord
  valid_rocks : List Coord
  start_pos : Coord
  total_grass_squares : Int
  all_grass_cut : Bool
  uncut_grass_remaining : Int
  did_mower_crash : Bool
  crash_reason : String
  pos_history : List Coord
  visited_cells : List Coord
  last_pos : Coord
deriving Repr, DecidableEq

/-- Read the result record off a final engine state. -/
def LawnmowerSim.simStatus (s : LawnmowerSim) : SimStatus :=
  { test_name := s.test_name
    grid_width := s.grid_width
    grid_height := s.grid_height
    rock_locations := s.rock_locations
    valid_rocks := s.valid_rocks
    start_pos := s.start_pos
    total_grass_squares := s.total_grass_squares
    all_grass_cut := s.all_grass_cut
    uncut_grass_remaining := s.uncut_remaining
    did_mower_crash := s.did_mower_crash
    crash_reason := s.crash_reason
    pos_history := s.pos_history
    visited_cells := s.visited_cells
    last_pos := s.last_pos }

/-- `LawnmowerSim.execute_path`: drive the engine through the whole path
and produce the result record. -/
def LawnmowerSim.execute_path (s : LawnmowerSim) (path : List String) : SimStatus :=
  (s.run path).simStatus

/-! ### Basic facts about the building blocks -/

theorem inBounds_iff {gh gw : Int} {p : Coord} :
    inBounds gh gw p = true ↔ 0 ≤ p.1 ∧ p.1 < gh ∧ 0 ≤ p.2 ∧ p.2 < gw := by
  simp [inBounds, and_assoc]

theorem mem_dictInsert {a k : Coord} {d : List Coord} :
    a ∈ dictInsert k d ↔ a = k ∨ a ∈ d := by
  unfold dictInsert
  by_cases h : k ∈ d
  · rw [if_pos h]
    constructor
    · exact Or.inr
    · rintro (rfl | ha)
      · exact h
      · exact ha
  · rw [if_neg h]
    simp [List.mem_append, or_comm]

theorem dictInsert_nodup {k : Coord} {d : List Coord} (h : d.Nodup) :
    (dictInsert k d).Nodup := by
  unfold dictInsert
  by_cases hk : k ∈ d
  · rwa [if_pos hk]
  · rw [if_neg hk]
    simp [List.nodup_append, h, hk]

theorem dictInsert_length_le {k : Coord} {d : List Coord} :
    (dictInsert k d).length ≤ d.length + 1 := by
  unfold dictInsert
  split
  · omega
  · simp

theorem length_le_dictInsert {k : Coord} {d : List Coord} :
    d.length ≤ (dictInsert k d).length := by
  unfold dictInsert
  split
  · omega
  · simp

theorem mem_addRocks {gh gw : Int} (rs : List Coord) (acc : List Coord) (p : Coord) :
    p ∈ addRocks gh gw acc rs ↔ p ∈ acc ∨ (p ∈ rs ∧ inBounds gh gw p = true) := by
  induction rs generalizing acc with
  | nil => simp [addRocks]
  | cons r rs ih =>
    simp only [addRocks]
    rw [ih]
    by_cases hb : inBounds gh gw r
    · rw [if_pos hb]
      simp only [mem_dictInsert, List.mem_cons]
      constructor
      · rintro ((rfl | ha) | hr)
        · exact Or.inr ⟨Or.inl rfl, hb⟩
        · exact Or.inl ha
        · exact Or.inr ⟨Or.inr hr.1, hr.2⟩
      · rintro (ha | ⟨(rfl | hr), hp⟩)
        · exact Or.inl (Or.inr ha)
        · exact Or.inl (Or.inl rfl)
        · exact Or.inr ⟨hr, hp⟩
    · rw [if_neg hb]
      simp only [List.mem_cons]
      constructor
      · rintro (ha | hr)
        · exact Or.inl ha
        · exact Or.inr ⟨Or.inr hr.1, hr.2⟩
      · rintro (ha | ⟨(rfl | hr), hp⟩)
        · exact Or.inl ha
        · exact absurd hp hb
        · exact Or.inr ⟨hr, hp⟩

theorem addRocks_nodup {gh gw : Int} (rs : List Coord) (acc : List Coord)
    (h : acc.Nodup) : (addRocks gh gw acc rs).Nodup := by
  induction rs generalizing acc with
  | nil => exact h
  | cons r rs ih =>
    simp only [addRocks]
    split
    · exact ih _ (dictInsert_nodup h)
    · exact ih _ h

theorem addRocks_length {gh gw : Int} (rs : List Coord) (acc : List Coord) :
    (addRocks gh gw acc rs).length ≤ acc.length + rs.length := by
  induction rs generalizing acc with
  | nil => simp [addRocks]
  | cons r rs ih =>
    simp only [addRocks]
    split
    · calc (addRocks gh gw (dictInsert r acc) rs).length
          ≤ (dictInsert r acc).length + rs.length := ih _
        _ ≤ (acc.length + 1) + rs.length := by
            exact Nat.add_le_add_right dictInsert_length_le _
        _ = acc.length + (r :: rs).length := by simp; omega
    · calc (addRocks gh gw acc rs).length ≤ acc.length + rs.length := ih _
        _ ≤ acc.length + (r :: rs).length := by simp

theorem mem_buildValidRocks {gh gw : Int} {rocks : List Coord} {p : Coord} :
    p ∈ buildValidRocks gh gw rocks ↔ p ∈ rocks ∧ inBounds gh gw p = true := by
  unfold buildValidRocks
  rw [mem_addRocks]
  simp

theorem buildValidRocks_nodup {gh gw : Int} (rocks : List Coord) :
    (buildValidRocks gh gw rocks).Nodup :=
  addRocks_nodup rocks [] List.nodup_nil

theorem buildValidRocks_length {gh gw : Int} (rocks : List Coord) :
    (buildValidRocks gh gw rocks).length ≤ rocks.length := by
  have := @addRocks_length gh gw rocks []
  simpa [buildValidRocks] using this

theorem addRocks_eq_append_filter {gh gw : Int} (rs : List Coord) (acc : List Coord)
    (h : (acc ++ rs.filter (fun r => inBounds gh gw r)).Nodup) :
    addRocks gh gw acc rs = acc ++ rs.filter (fun r => inBounds gh gw r) := by
  induction rs generalizing acc with
  | nil => simp [addRocks]
  | cons r rs ih =>
    by_cases hb : inBounds gh gw r
    · simp only [addRocks, List.filter_cons, hb, if_true, reduceIte] at h ⊢
      have hr : r ∉ acc := by
        intro hmem
        rw [List.nodup_append] at h
        exact h.2.2 hmem (List.mem_cons_self r _)
      rw [show dictInsert r acc = acc ++ [r] from if_neg hr]
      rw [ih (acc ++ [r]) (by simpa using h)]
      simp
    · simp only [addRocks, List.filter_cons, hb, Bool.false_eq_true, if_false,
        reduceIte] at h ⊢
      exact ih acc h

theorem buildValidRocks_eq_filter {gh gw : Int} (rocks : List Coord)
    (h : (rocks.filter (fun r => inBounds gh gw r)).Nodup) :
    buildValidRocks gh gw rocks = rocks.filter (fun r => inBounds gh gw r) := by
  unfold buildValidRocks
  have := @addRocks_eq_append_filter gh gw rocks [] (by simpa using h)
  simpa using this

/-! ### Characterizing a single `move` call -/

theorem move_snd (s : LawnmowerSim) (m : String) :
    (s.move m).2 = !(s.move m).1.did_mower_crash := rfl

theorem move_rock {s : LawnmowerSim} {m : String}
    (h : moveOffset m s.last_pos ∈ s.valid_rocks) :
    s.move m =
      ({ s with last_pos := moveOffset m s.last_pos,
                pos_history := s.pos_history ++ [moveOffset m s.last_pos],
                did_mower_crash := true,
                crash_reason := "Crashed into Rock" }, false) := by
  simp [LawnmowerSim.move, h]

theorem move_fence {s : LawnmowerSim} {m : String}
    (h1 : moveOffset m s.last_pos ∉ s.valid_rocks)
    (h2 : inBounds s.grid_height s.grid_width (moveOffset m s.last_pos) = false) :
    s.move m =
      ({ s with last_pos := moveOffset m s.last_pos,
                pos_history := s.pos_history ++ [moveOffset m s.last_pos],
                did_mower_crash := true,
                crash_reason := "Crashed into Fence" }, false) := by
  simp [LawnmowerSim.move, h1, h2]

theorem move_legal {s : LawnmowerSim} {m : String}
    (h1 : moveOffset m s.last_pos ∉ s.valid_rocks)
    (h2 : inBounds s.grid_height s.grid_width (moveOffset m s.last_pos) = true) :
    s.move m =
      ({ s with last_pos := moveOffset m s.last_pos,
                pos_history := s.pos_history ++ [moveOffset m s.last_pos],
                visited_cells := dictInsert (moveOffset m s.last_pos) s.visited_cells,
                number_visited_cells :=
                  (dictInsert (moveOffset m s.last_pos) s.visited_cells).length,
                uncut_remaining := s.total_grass_squares -
                  ((dictInsert (moveOffset m s.last_pos) s.visited_cells).length : Int),
                all_grass_cut := decide (s.total_grass_squares -
                  ((dictInsert (moveOffset m s.last_pos) s.visited_cells).length : Int) = 0) },
       !s.did_mower_crash) := by
  simp [LawnmowerSim.move, h1, h2]

theorem move_config (s : LawnmowerSim) (m : String) :
    (s.move m).1.test_name = s.test_name ∧
    (s.move m).1.grid_height = s.grid_height ∧
    (s.move m).1.grid_width = s.grid_width ∧
    (s.move m).1.rock_locations = s.rock_locations ∧
    (s.move m).1.valid_rocks = s.valid_rocks ∧
    (s.move m).1.total_grass_squares = s.total_grass_squares ∧
    (s.move m).1.start_pos = s.start_pos := by
  by_cases h1 : moveOffset m s.last_pos ∈ s.valid_rocks
  · rw [move_rock h1]
    exact ⟨rfl, rfl, rfl, rfl, rfl, rfl, rfl⟩
  · by_cases h2 : inBounds s.grid_height s.grid_width (moveOffset m s.last_pos)
    · rw [move_legal h1 h2]
      exact ⟨rfl, rfl, rfl, rfl, rfl, rfl, rfl⟩
    · rw [move_fence h1 (by simpa using h2)]
      exact ⟨rfl, rfl, rfl, rfl, rfl, rfl, rfl⟩

theorem move_history (s : LawnmowerSim) (m : String) :
    (s.move m).1.pos_history = s.pos_history ++ [moveOffset m s.last_pos] := by
  by_cases h1 : moveOffset m s.last_pos ∈ s.valid_rocks
  · rw [move_rock h1]
  · by_cases h2 : inBounds s.grid_height s.grid_width (moveOffset m s.last_pos)
    · rw [move_legal h1 h2]
    · rw [move_fence h1 (by simpa using h2)]

theorem move_last (s : LawnmowerSim) (m : String) :
    (s.move m).1.last_pos = moveOffset m s.last_pos := by
  by_cases h1 : moveOffset m s.last_pos ∈ s.valid_rocks
  · rw [move_rock h1]
  · by_cases h2 : inBounds s.grid_height s.grid_width (moveOffset m s.last_pos)
    · rw [move_legal h1 h2]
    · rw [move_fence h1 (by simpa using h2)]

theorem move_crash_mono (s : LawnmowerSim) (m : String)
    (h : s.did_mower_crash = true) : (s.move m).1.did_mower_crash = true := by
  by_cases h1 : moveOffset m s.last_pos ∈ s.valid_rocks
  · rw [move_rock h1]
  · by_cases h2 : inBounds s.grid_height s.grid_width (moveOffset m s.last_pos)
    · rw [move_legal h1 h2]
      exact h
    · rw [move_fence h1 (by simpa using h2)]

theorem move_failed_state (s : LawnmowerSim) (m : String)
    (hs : s.did_mower_crash = false) (hf : (s.move m).2 = false) :
    (s.move m).1.visited_cells = s.visited_cells ∧
    (s.move m).1.uncut_remaining = s.uncut_remaining ∧
    (s.move m).1.all_grass_cut = s.all_grass_cut ∧
    (s.move m).1.did_mower_crash = true ∧
    ((s.move m).1.last_pos ∈ s.valid_rocks ∨
      inBounds s.grid_height s.grid_width ((s.move m).1.last_pos) = false) := by
  by_cases h1 : moveOffset m s.last_pos ∈ s.valid_rocks
  · rw [move_rock h1]
    exact ⟨rfl, rfl, rfl, rfl, Or.inl h1⟩
  · by_cases h2 : inBounds s.grid_height s.grid_width (moveOffset m s.last_pos)
    · rw [move_legal h1 h2] at hf
      simp [hs] at hf
    · rw [move_fence h1 (by simpa using h2)]
      exact ⟨rfl, rfl, rfl, rfl, Or.inr (by simpa using h2)⟩

theorem move_visited_mem (s : LawnmowerSim) (m : String) {p : Coord}
    (hp : p ∈ (s.move m).1.visited_cells) :
    p ∈ s.visited_cells ∨
      (inBounds s.grid_height s.grid_width p = true ∧ p ∉ s.valid_rocks) := by
  by_cases h1 : moveOffset m s.last_pos ∈ s.valid_rocks
  · rw [move_rock h1] at hp
    exact Or.inl hp
  · by_cases h2 : inBounds s.grid_height s.grid_width (moveOffset m s.last_pos)
    · rw [move_legal h1 h2] at hp
      rcases mem_dictInsert.mp hp with rfl | hp
      · exact Or.inr ⟨h2, h1⟩
      · exact Or.inl hp
    · rw [move_fence h1 (by simpa using h2)] at hp
      exact Or.inl hp

theorem move_visited_length (s : LawnmowerSim) (m : String) :
    (s.move m).1.visited_cells.length ≤ s.visited_cells.length + 1 := by
  by_cases h1 : moveOffset m s.last_pos ∈ s.valid_rocks
  · rw [move_rock h1]
    exact Nat.le_succ _
  · by_cases h2 : inBounds s.grid_height s.grid_width (moveOffset m s.last_pos)
    · rw [move_legal h1 h2]
      exact dictInsert_length_le
    · rw [move_fence h1 (by simpa using h2)]
      exact Nat.le_succ _

/-! ### Lemmas about the `execute_path` loop -/

theorem run_nil (s : LawnmowerSim) : s.run [] = s := rfl

theorem run_cons (s : LawnmowerSim) (m : String) (ms : List String) :
    s.run (m :: ms) =
      if (s.move (pyLower m)).2 then (s.move (pyLower m)).1.run ms
      else (s.move (pyLower m)).1 := rfl

theorem movesExecuted_nil (s : LawnmowerSim) : s.movesExecuted [] = 0 := rfl

theorem movesExecuted_cons (s : LawnmowerSim) (m : String) (ms : List String) :
    s.movesExecuted (m :: ms) =
      if (s.move (pyLower m)).2 then 1 + (s.move (pyLower m)).1.movesExecuted ms
      else 1 := rfl

theorem move_ok_not_crashed {s : LawnmowerSim} {m : String}
    (h : (s.move m).2 = true) : (s.move m).1.did_mower_crash = false := by
  have hs := move_snd s m
  rw [h] at hs
  cases hcr : (s.move m).1.did_mower_crash
  · rfl
  · rw [hcr] at hs
    simp at hs

theorem move_fail_crashed {s : LawnmowerSim} {m : String}
    (h : (s.move m).2 = false) : (s.move m).1.did_mower_crash = true := by
  have hs := move_snd s m
  rw [h] at hs
  cases hcr : (s.move m).1.did_mower_crash
  · rw [hcr] at hs
    simp at hs
  · rfl

theorem run_config (s : LawnmowerSim) (path : List String) :
    (s.run path).test_name = s.test_name ∧
    (s.run path).grid_height = s.grid_height ∧
    (s.run path).grid_width = s.grid_width ∧
    (s.run path).rock_locations = s.rock_locations ∧
    (s.run path).valid_rocks = s.valid_rocks ∧
    (s.run path).total_grass_squares = s.total_grass_squares ∧
    (s.run path).start_pos = s.start_pos := by
  induction path generalizing s with
  | nil => exact ⟨rfl, rfl, rfl, rfl, rfl, rfl, rfl⟩
  | cons m ms ih =>
    rw [run_cons]
    by_cases hok : (s.move (pyLower m)).2 = true
    · rw [if_pos hok]
      obtain ⟨a1, a2, a3, a4, a5, a6, a7⟩ := ih (s.move (pyLower m)).1
      obtain ⟨b1, b2, b3, b4, b5, b6, b7⟩ := move_config s (pyLower m)
      exact ⟨a1.trans b1, a2.trans b2, a3.trans b3, a4.trans b4,
             a5.trans b5, a6.trans b6, a7.trans b7⟩
    · rw [if_neg hok]
      exact move_config s (pyLower m)

theorem run_append_of_crash (s : LawnmowerSim) (p1 p2 : List String)
    (hs : s.did_mower_crash = false)
    (hc : (s.run p1).did_mower_crash = true) :
    s.run (p1 ++ p2) = s.run p1 := by
  induction p1 generalizing s with
  | nil =>
    rw [run_nil] at hc
    rw [hs] at hc
    cases hc
  | cons m ms ih =>
    rw [List.cons_append]
    simp only [run_cons] at hc ⊢
    by_cases hok : (s.move (pyLower m)).2 = true
    · simp only [if_pos hok] at hc ⊢
      exact ih _ (move_ok_not_crashed hok) hc
    · simp only [if_neg hok]

theorem run_history_length (s : LawnmowerSim) (path : List String) :
    (s.run path).pos_history.length = s.pos_history.length + s.movesExecuted path := by
  induction path generalizing s with
  | nil =>
    rw [run_nil, movesExecuted_nil]
    rfl
  | cons m ms ih =>
    rw [run_cons, movesExecuted_cons]
    by_cases hok : (s.move (pyLower m)).2 = true
    · rw [if_pos hok, if_pos hok, ih, move_history]
      simp
      omega
    · rw [if_neg hok, if_neg hok, move_history]
      simp

theorem run_getLast (s : LawnmowerSim) (path : List String)
    (h : s.pos_history.getLast? = some s.last_pos) :
    (s.run path).pos_history.getLast? = some (s.run path).last_pos := by
  induction path generalizing s with
  | nil => exact h
  | cons m ms ih =>
    rw [run_cons]
    have hm : (s.move (pyLower m)).1.pos_history.getLast?
        = some ((s.move (pyLower m)).1.last_pos) := by
      rw [move_history, move_last, List.getLast?_concat]
    by_cases hok : (s.move (pyLower m)).2 = true
    · rw [if_pos hok]
      exact ih _ hm
    · rw [if_neg hok]
      exact hm

theorem run_visited_mem (s : LawnmowerSim) (path : List String) {p : Coord}
    (hp : p ∈ (s.run path).visited_cells) :
    p ∈ s.visited_cells ∨
      (inBounds s.grid_height s.grid_width p = true ∧ p ∉ s.valid_rocks) := by
  induction path generalizing s with
  | nil => exact Or.inl hp
  | cons m ms ih =>
    rw [run_cons] at hp
    by_cases hok : (s.move (pyLower m)).2 = true
    · rw [if_pos hok] at hp
      rcases ih _ hp with h | h
      · exact move_visited_mem s _ h
      · obtain ⟨-, b2, b3, -, b5, -, -⟩ := move_config s (pyLower m)
        rw [b2, b3, b5] at h
        exact Or.inr h
    · rw [if_neg hok] at hp
      exact move_visited_mem s _ hp

theorem run_visited_le_history (s : LawnmowerSim) (path : List String)
    (h : s.visited_cells.length ≤ s.pos_history.length) :
    (s.run path).visited_cells.length ≤ (s.run path).pos_history.length := by
  induction path generalizing s with
  | nil => exact h
  | cons m ms ih =>
    rw [run_cons]
    have hm : (s.move (pyLower m)).1.visited_cells.length
        ≤ (s.move (pyLower m)).1.pos_history.length := by
      have h1 := move_visited_length s (pyLower m)
      have h2 : (s.move (pyLower m)).1.pos_history.length
          = s.pos_history.length + 1 := by
        rw [move_history]
        simp
      omega
    by_cases hok : (s.move (pyLower m)).2 = true
    · rw [if_pos hok]
      exact ih _ hm
    · rw [if_neg hok]
      exact hm

theorem run_crash_classify (s : LawnmowerSim) (path : List String)
    (hs : s.did_mower_crash = false)
    (hc : (s.run path).did_mower_crash = true) :
    (s.run path).last_pos ∈ s.valid_rocks ∨
      inBounds s.grid_height s.grid_width ((s.run path).last_pos) = false := by
  induction path generalizing s with
  | nil =>
    rw [run_nil] at hc
    rw [hs] at hc
    cases hc
  | cons m ms ih =>
    rw [run_cons] at hc ⊢
    by_cases hok : (s.move (pyLower m)).2 = true
    · rw [if_pos hok] at hc ⊢
      have hres := ih _ (move_ok_not_crashed hok) hc
      obtain ⟨-, b2, b3, -, b5, -, -⟩ := move_config s (pyLower m)
      rw [b2, b3, b5] at hres
      exact hres
    · rw [if_neg hok] at hc ⊢
      have hfail := move_failed_state s (pyLower m) hs
        (by cases hv : (s.move (pyLower m)).2 <;> simp_all)
      exact hfail.2.2.2.2

/-! ### The state invariant of a well-started engine -/

/-- Invariant tying the coverage counters to the visited dict: the rock
dict is duplicate-free and in bounds, the visited dict is duplicate-free
and holds only mowable cells, `uncut_remaining` is the mowable total minus
the number of visited cells, and `total_grass_squares` is the grid area
minus the number of valid rocks. -/
structure Inv (s : LawnmowerSim) : Prop where
  rocks_nodup : s.valid_rocks.Nodup
  rocks_inb : ∀ p ∈ s.valid_rocks, inBounds s.grid_height s.grid_width p = true
  vis_nodup : s.visited_cells.Nodup
  vis_ok : ∀ p ∈ s.visited_cells,
    inBounds s.grid_height s.grid_width p = true ∧ p ∉ s.valid_rocks
  uncut_eq : s.uncut_remaining =
    s.total_grass_squares - (s.visited_cells.length : Int)
  total_eq : s.total_grass_squares =
    s.grid_width * s.grid_height - (s.valid_rocks.length : Int)

theorem move_inv {s : LawnmowerSim} (m : String) (hInv : Inv s) :
    Inv (s.move m).1 := by
  by_cases h1 : moveOffset m s.last_pos ∈ s.valid_rocks
  · rw [move_rock h1]
    exact ⟨hInv.rocks_nodup, hInv.rocks_inb, hInv.vis_nodup, hInv.vis_ok,
           hInv.uncut_eq, hInv.total_eq⟩
  · by_cases h2 : inBounds s.grid_height s.grid_width (moveOffset m s.last_pos)
    · rw [move_legal h1 h2]
      refine ⟨hInv.rocks_nodup, hInv.rocks_inb, dictInsert_nodup hInv.vis_nodup,
              ?_, rfl, hInv.total_eq⟩
      intro p hp
      rcases mem_dictInsert.mp hp with rfl | hp
      · exact ⟨h2, h1⟩
      · exact hInv.vis_ok p hp
    · rw [move_fence h1 (by simpa using h2)]
      exact ⟨hInv.rocks_nodup, hInv.rocks_inb, hInv.vis_nodup, hInv.vis_ok,
             hInv.uncut_eq, hInv.total_eq⟩

theorem run_inv (s : LawnmowerSim) (path : List String) (hInv : Inv s) :
    Inv (s.run path) := by
  induction path generalizing s with
  | nil => exact hInv
  | cons m ms ih =>
    rw [run_cons]
    by_cases hok : (s.move (pyLower m)).2 = true
    · rw [if_pos hok]
      exact ih _ (move_inv _ hInv)
    · rw [if_neg hok]
      exact move_inv _ hInv

/-! ### Facts about `__init__` -/

theorem init_not_crashed (name : String) (gh gw : Int) (rocks : List Coord)
    (start : Coord) :
    (LawnmowerSim.init name gh gw rocks start).did_mower_crash = false := rfl

theorem init_inv {name : String} {gh gw : Int} {rocks : List Coord} {start : Coord}
    (hsb : inBounds gh gw start = true)
    (hsr : start ∉ buildValidRocks gh gw rocks) :
    Inv (LawnmowerSim.init name gh gw rocks start) := by
  unfold LawnmowerSim.init
  rw [if_pos hsb]
  refine ⟨buildValidRocks_nodup rocks, ?_, List.nodup_singleton _, ?_, ?_, rfl⟩
  · intro p hp
    exact (mem_buildValidRocks.mp hp).2
  · intro p hp
    rcases List.mem_singleton.mp hp with rfl
    exact ⟨hsb, hsr⟩
  · simp

/-! ### Counting mowable cells -/

/-- The finite set of in-bounds grid cells. -/
def gridCells (gh gw : Int) : Finset Coord :=
  Finset.Icc 0 (gh - 1) ×ˢ Finset.Icc 0 (gw - 1)

theorem mem_gridCells {gh gw : Int} {p : Coord} :
    p ∈ gridCells gh gw ↔ inBounds gh gw p = true := by
  rw [inBounds_iff]
  simp only [gridCells, Finset.mem_product, Finset.mem_Icc]
  constructor
  · rintro ⟨⟨h1, h2⟩, h3, h4⟩
    exact ⟨h1, Int.le_sub_one_iff.mp h2, h3, Int.le_sub_one_iff.mp h4⟩
  · rintro ⟨h1, h2, h3, h4⟩
    exact ⟨⟨h1, Int.le_sub_one_iff.mpr h2⟩, h3, Int.le_sub_one_iff.mpr h4⟩

theorem gridCells_card {gh gw : Int} (hh : 0 < gh) (hw : 0 < gw) :
    ((gridCells gh gw).card : Int) = gw * gh := by
  simp only [gridCells, Finset.card_product, Int.card_Icc]
  have h1 : gh - 1 + 1 - 0 = gh := by ring
  have h2 : gw - 1 + 1 - 0 = gw := by ring
  rw [h1, h2, Nat.cast_mul, Int.toNat_of_nonneg hh.le, Int.toNat_of_nonneg hw.le,
    mul_comm]

/-- From the invariant: the number of visited cells never exceeds the
mowable total, with equality exactly at full coverage. -/
theorem inv_count {s : LawnmowerSim} (hInv : Inv s)
    (hh : 0 < s.grid_height) (hw : 0 < s.grid_width) :
    (s.visited_cells.length : Int) ≤ s.total_grass_squares ∧
    ((s.visited_cells.length : Int) = s.total_grass_squares ↔
      ∀ p : Coord, inBounds s.grid_height s.grid_width p = true →
        p ∉ s.valid_rocks → p ∈ s.visited_cells) := by
  classical
  have hRG : s.valid_rocks.toFinset ⊆ gridCells s.grid_height s.grid_width := by
    intro p hp
    rw [List.mem_toFinset] at hp
    exact mem_gridCells.mpr (hInv.rocks_inb p hp)
  have hVM : s.visited_cells.toFinset ⊆
      gridCells s.grid_height s.grid_width \ s.valid_rocks.toFinset := by
    intro p hp
    rw [List.mem_toFinset] at hp
    obtain ⟨hb, hnr⟩ := hInv.vis_ok p hp
    rw [Finset.mem_sdiff, List.mem_toFinset]
    exact ⟨mem_gridCells.mpr hb, hnr⟩
  have hVcard : s.visited_cells.toFinset.card = s.visited_cells.length :=
    List.toFinset_card_of_nodup hInv.vis_nodup
  have hRcard : s.valid_rocks.toFinset.card = s.valid_rocks.length :=
    List.toFinset_card_of_nodup hInv.rocks_nodup
  have hMcard : (((gridCells s.grid_height s.grid_width \
      s.valid_rocks.toFinset).card : Nat) : Int) = s.total_grass_squares := by
    rw [Finset.card_sdiff hRG, Nat.cast_sub (Finset.card_le_card hRG), hRcard,
      gridCells_card hh hw, hInv.total_eq]
  constructor
  · calc (s.visited_cells.length : Int)
        = (s.visited_cells.toFinset.card : Int) := by rw [hVcard]
      _ ≤ ((gridCells s.grid_height s.grid_width \
            s.valid_rocks.toFinset).card : Int) := by
          exact_mod_cast Finset.card_le_card hVM
      _ = s.total_grass_squares := hMcard
  · constructor
    · intro heq p hb hnr
      have hcard : (gridCells s.grid_height s.grid_width \
          s.valid_rocks.toFinset).card ≤ s.visited_cells.toFinset.card := by
        have : ((s.visited_cells.toFinset.card : Nat) : Int)
            = ((gridCells s.grid_height s.grid_width \
                s.valid_rocks.toFinset).card : Int) := by
          rw [hVcard, heq, hMcard]
        exact_mod_cast this.ge
      have hset := Finset.eq_of_subset_of_card_le hVM hcard
      have hpM : p ∈ gridCells s.grid_height s.grid_width \
          s.valid_rocks.toFinset := by
        rw [Finset.mem_sdiff, List.mem_toFinset]
        exact ⟨mem_gridCells.mpr hb, hnr⟩
      rw [← hset, List.mem_toFinset] at hpM
      exact hpM
    · intro hall
      have hMV : gridCells s.grid_height s.grid_width \ s.valid_rocks.toFinset
          ⊆ s.visited_cells.toFinset := by
        intro p hp
        rw [Finset.mem_sdiff, List.mem_toFinset] at hp
        rw [List.mem_toFinset]
        exact hall p (mem_gridCells.mp hp.1) hp.2
      have hset := Finset.Subset.antisymm hVM hMV
      calc (s.visited_cells.length : Int)
          = (s.visited_cells.toFinset.card : Int) := by rw [hVcard]
        _ = ((gridCells s.grid_height s.grid_width \
              s.valid_rocks.toFinset).card : Int) := by rw [hset]
        _ = s.total_grass_squares := hMcard

/-! ### Claim theorems -/

/-- Claim C7: scenario A — grid height 3, width 2, obstacles
[[1,1],[0,1]], start [0,0], moves [down,down,right] — yields a result
record with `all_grass_cut = true`, `did_mower_crash = false`, and
`uncut_grass_remaining = 0`. -/
theorem scenario_a_full_cut :
    ((LawnmowerSim.init ("ValidTest") 3 2 [((1 : Int), (1 : Int)), ((0 : Int), (1 : Int))]
        ((0 : Int), (0 : Int))).execute_path
        [("down"), ("down"), ("right")]).all_grass_cut = true ∧
    ((LawnmowerSim.init ("ValidTest") 3 2 [((1 : Int), (1 : Int)), ((0 : Int), (1 : Int))]
        ((0 : Int), (0 : Int))).execute_path
        [("down"), ("down"), ("right")]).did_mower_crash = false ∧
    ((LawnmowerSim.init ("ValidTest") 3 2 [((1 : Int), (1 : Int)), ((0 : Int), (1 : Int))]
        ((0 : Int), (0 : Int))).execute_path
        [("down"), ("down"), ("right")]).uncut_grass_remaining = 0 := by
  decide

/-- Claim C4: once a run driven by `execute_path` has crashed, the crash is
terminal — appending any further moves to the path leaves the final engine
state (position, visited set, counters, history, flags) exactly unchanged,
and the crash flag stays true. -/
theorem crash_is_terminal
    (name : String) (gh gw : Int) (rocks : List Coord) (start : Coord)
    (p1 p2 : List String)
    (hc : ((LawnmowerSim.init name gh gw rocks start).run p1).did_mower_crash = true) :
    (LawnmowerSim.init name gh gw rocks start).run (p1 ++ p2) =
      (LawnmowerSim.init name gh gw rocks start).run p1 ∧
    ((LawnmowerSim.init name gh gw rocks start).run (p1 ++ p2)).did_mower_crash = true := by
  have h := run_append_of_crash (LawnmowerSim.init name gh gw rocks start) p1 p2 rfl hc
  refine ⟨h, ?_⟩
  rw [h]
  exact hc

/-- Witness for C4: scenario B crashes into the fence on the first move,
and the extra move afterwards changes nothing. -/
theorem crash_is_terminal_witness :
    (LawnmowerSim.init ("FenceTest") 5 5 [] ((0 : Int), (0 : Int))).run
        ([("up")] ++ [("down")]) =
      (LawnmowerSim.init ("FenceTest") 5 5 [] ((0 : Int), (0 : Int))).run [("up")] ∧
    ((LawnmowerSim.init ("FenceTest") 5 5 [] ((0 : Int), (0 : Int))).run
        ([("up")] ++ [("down")])).did_mower_crash = true :=
  crash_is_terminal ("FenceTest") 5 5 [] ((0 : Int), (0 : Int)) [("up")] [("down")]
    (by decide)

/-- Claim C9: a construction with an out-of-bounds start coordinate resets
`start_pos` and `last_pos` to (0,0), yet seeds `visited_cells` with the raw
out-of-bounds coordinate only — the substituted cell (0,0) is not recorded
as visited. -/
theorem init_out_of_bounds_start (name : String) (gh gw : Int)
    (rocks : List Coord) (start : Coord)
    (hh : 0 < gh) (hw : 0 < gw)
    (hs : inBounds gh gw start = false) :
    (LawnmowerSim.init name gh gw rocks start).start_pos = ((0 : Int), (0 : Int)) ∧
    (LawnmowerSim.init name gh gw rocks start).last_pos = ((0 : Int), (0 : Int)) ∧
    (LawnmowerSim.init name gh gw rocks start).visited_cells = [start] ∧
    ((0 : Int), (0 : Int)) ∉ (LawnmowerSim.init name gh gw rocks start).visited_cells := by
  have hcond : ¬ (inBounds gh gw start = true) := by
    rw [hs]
    exact Bool.false_ne_true
  have hzero : inBounds gh gw ((0 : Int), (0 : Int)) = true := by
    rw [inBounds_iff]
    exact ⟨le_refl 0, hh, le_refl 0, hw⟩
  have hne : start ≠ ((0 : Int), (0 : Int)) := by
    intro heq
    rw [heq, hzero] at hs
    cases hs
  refine ⟨?_, ?_, rfl, ?_⟩
  · show (if inBounds gh gw start = true then start else ((0 : Int), (0 : Int)))
        = ((0 : Int), (0 : Int))
    exact if_neg hcond
  · show (if inBounds gh gw start = true then start else ((0 : Int), (0 : Int)))
        = ((0 : Int), (0 : Int))
    exact if_neg hcond
  · intro hmem
    have hm : ((0 : Int), (0 : Int)) ∈ [start] := hmem
    exact hne (List.mem_singleton.mp hm).symm

/-- Witness for C9: a 1x1 grid with start [5,5]. -/
theorem init_out_of_bounds_start_witness :
    (LawnmowerSim.init ("w9") 1 1 [] ((5 : Int), (5 : Int))).start_pos
        = ((0 : Int), (0 : Int)) ∧
    (LawnmowerSim.init ("w9") 1 1 [] ((5 : Int), (5 : Int))).last_pos
        = ((0 : Int), (0 : Int)) ∧
    (LawnmowerSim.init ("w9") 1 1 [] ((5 : Int), (5 : Int))).visited_cells
        = [((5 : Int), (5 : Int))] ∧
    ((0 : Int), (0 : Int)) ∉
      (LawnmowerSim.init ("w9") 1 1 [] ((5 : Int), (5 : Int))).visited_cells :=
  init_out_of_bounds_start ("w9") 1 1 [] ((5 : Int), (5 : Int))
    (by decide) (by decide) (by decide)

/-- Claim C10: when no legal move is executed — the path is empty, or its
first move already fails — the result record reports `all_grass_cut =
false`, regardless of `uncut_grass_remaining`. -/
theorem all_grass_cut_requires_legal_move
    (name : String) (gh gw : Int) (rocks : List Coord) (start : Coord)
    (path : List String)
    (h : path = [] ∨ ∃ m ms, path = m :: ms ∧
      ((LawnmowerSim.init name gh gw rocks start).move (pyLower m)).2 = false) :
    ((LawnmowerSim.init name gh gw rocks start).execute_path path).all_grass_cut
      = false := by
  rcases h with rfl | ⟨m, ms, rfl, hf⟩
  · rfl
  · show ((LawnmowerSim.init name gh gw rocks start).run (m :: ms)).all_grass_cut = false
    rw [run_cons, if_neg (by rw [hf]; exact Bool.false_ne_true)]
    have hstate := move_failed_state (LawnmowerSim.init name gh gw rocks start)
      (pyLower m) rfl hf
    rw [hstate.2.2.1]
    rfl

/-- Witness for C10: a fully-mown 1x1 lawn with an empty path still reports
`all_grass_cut = false` while `uncut_grass_remaining = 0`. -/
theorem all_grass_cut_requires_legal_move_witness :
    ((LawnmowerSim.init ("w10") 1 1 [] ((0 : Int), (0 : Int))).execute_path
        []).all_grass_cut = false ∧
    ((LawnmowerSim.init ("w10") 1 1 [] ((0 : Int), (0 : Int))).execute_path
        []).uncut_grass_remaining = 0 :=
  ⟨all_grass_cut_requires_legal_move ("w10") 1 1 [] ((0 : Int), (0 : Int)) []
      (Or.inl rfl),
    by decide⟩

/-- Claim C1, counterexample: with the start coordinate placed on a valid
rock (1x1 grid, rock at (0,0), start (0,0)), `__init__` itself puts a
member of the valid obstacle set into the visited set, so the claim fails
as stated for arbitrary start coordinates. -/
theorem visited_cells_rock_start_cex :
    ((0 : Int), (0 : Int)) ∈ ((LawnmowerSim.init ("c1") 1 1 [((0 : Int), (0 : Int))]
        ((0 : Int), (0 : Int))).run []).visited_cells ∧
    ((0 : Int), (0 : Int)) ∈ ((LawnmowerSim.init ("c1") 1 1 [((0 : Int), (0 : Int))]
        ((0 : Int), (0 : Int))).run []).valid_rocks := by
  decide

/-- Claim C1 (amended): for every construction whose start coordinate is
in grid bounds and not a valid obstacle, after any move sequence applied
via `execute_path` every coordinate in the visited set lies within grid
bounds and is not a member of the valid obstacle set. -/
theorem visited_cells_safe_of_valid_start
    (name : String) (gh gw : Int) (rocks : List Coord) (start : Coord)
    (path : List String)
    (hsb : inBounds gh gw start = true)
    (hsr : start ∉ buildValidRocks gh gw rocks) :
    ∀ p ∈ ((LawnmowerSim.init name gh gw rocks start).run path).visited_cells,
      inBounds gh gw p = true ∧ p ∉ buildValidRocks gh gw rocks := by
  intro p hp
  have hInv := run_inv (LawnmowerSim.init name gh gw rocks start) path (init_inv hsb hsr)
  have hok := hInv.vis_ok p hp
  obtain ⟨-, b2, b3, -, b5, -, -⟩ :=
    run_config (LawnmowerSim.init name gh gw rocks start) path
  rw [b2, b3, b5] at hok
  exact hok

/-- Witness for C1: a 2x2 grid with one rock, one legal move down. -/
theorem visited_cells_safe_of_valid_start_witness :
    inBounds 2 2 ((0 : Int), (0 : Int)) = true ∧
    ((0 : Int), (0 : Int)) ∉ buildValidRocks 2 2 [((1 : Int), (1 : Int))] ∧
    ((1 : Int), (0 : Int)) ∈ ((LawnmowerSim.init ("w1") 2 2 [((1 : Int), (1 : Int))]
        ((0 : Int), (0 : Int))).run [("down")]).visited_cells ∧
    (inBounds 2 2 ((1 : Int), (0 : Int)) = true ∧
      ((1 : Int), (0 : Int)) ∉ buildValidRocks 2 2 [((1 : Int), (1 : Int))]) :=
  ⟨by decide, by decide, by decide,
    visited_cells_safe_of_valid_start ("w1") 2 2 [((1 : Int), (1 : Int))]
      ((0 : Int), (0 : Int)) [("down")] (by decide) (by decide)
      ((1 : Int), (0 : Int)) (by decide)⟩

/-- Claim C2, counterexample: with positive dimensions but the start placed
on the single rock of a 1x1 grid, `uncut_remaining` is -1 immediately after
construction (and stays so through an empty `execute_path` run). -/
theorem uncut_remaining_negative_cex :
    ((LawnmowerSim.init ("c2") 1 1 [((0 : Int), (0 : Int))]
        ((0 : Int), (0 : Int))).run []).uncut_remaining < 0 := by
  decide

/-- Claim C2 (amended): with positive dimensions and a start coordinate in
bounds and not a valid rock, after any move sequence applied via
`execute_path` the counter `uncut_remaining` is nonnegative, and it is zero
exactly when every mowable cell (in bounds, not a valid rock) is in the
visited set. -/
theorem uncut_remaining_nonneg_iff_full_coverage
    (name : String) (gh gw : Int) (rocks : List Coord) (start : Coord)
    (path : List String)
    (hh : 0 < gh) (hw : 0 < gw)
    (hsb : inBounds gh gw start = true)
    (hsr : start ∉ buildValidRocks gh gw rocks) :
    0 ≤ ((LawnmowerSim.init name gh gw rocks start).run path).uncut_remaining ∧
    (((LawnmowerSim.init name gh gw rocks start).run path).uncut_remaining = 0 ↔
      ∀ p : Coord, inBounds gh gw p = true → p ∉ buildValidRocks gh gw rocks →
        p ∈ ((LawnmowerSim.init name gh gw rocks start).run path).visited_cells) := by
  have hInv := run_inv (LawnmowerSim.init name gh gw rocks start) path (init_inv hsb hsr)
  obtain ⟨-, b2, b3, -, b5, -, -⟩ :=
    run_config (LawnmowerSim.init name gh gw rocks start) path
  have hh' : 0 < ((LawnmowerSim.init name gh gw rocks start).run path).grid_height := by
    rw [b2]
    exact hh
  have hw' : 0 < ((LawnmowerSim.init name gh gw rocks start).run path).grid_width := by
    rw [b3]
    exact hw
  obtain ⟨hle, hiff⟩ := inv_count hInv hh' hw'
  rw [b2, b3, b5] at hiff
  have e2 : (LawnmowerSim.init name gh gw rocks start).grid_height = gh := rfl
  have e3 : (LawnmowerSim.init name gh gw rocks start).grid_width = gw := rfl
  have e5 : (LawnmowerSim.init name gh gw rocks start).valid_rocks
      = buildValidRocks gh gw rocks := rfl
  rw [e2, e3, e5] at hiff
  constructor
  · rw [hInv.uncut_eq]
    omega
  · rw [hInv.uncut_eq]
    constructor
    · intro h0 p hb hnr
      exact hiff.mp (by omega) p hb hnr
    · intro hall
      have := hiff.mpr hall
      omega

/-- Witness for C2: a 1x2 grid, no rocks, one move right reaches full
coverage; the nonnegativity part of the theorem is instantiated there. -/
theorem uncut_remaining_nonneg_iff_full_coverage_witness :
    (0 : Int) < 1 ∧ (0 : Int) < 2 ∧
    inBounds 1 2 ((0 : Int), (0 : Int)) = true ∧
    ((0 : Int), (0 : Int)) ∉ buildValidRocks 1 2 [] ∧
    0 ≤ ((LawnmowerSim.init ("w2") 1 2 [] ((0 : Int), (0 : Int))).run
        [("right")]).uncut_remaining :=
  ⟨by decide, by decide, by decide, by decide,
    (uncut_remaining_nonneg_iff_full_coverage ("w2") 1 2 [] ((0 : Int), (0 : Int))
      [("right")] (by decide) (by decide) (by decide) (by decide)).1⟩

/-- Claim C3: the final `pos_history` of an `execute_path` run has length
one (the start entry) plus the number of moves executed, including the
crash-causing one; `visited_cells` is never longer than `pos_history`; and
when a crash occurs the crash coordinate is the last history entry and is
in the visited set only if it was already visited at construction — in
particular, for a well-formed start it is not in the visited set at all. -/
theorem pos_history_audit
    (name : String) (gh gw : Int) (rocks : List Coord) (start : Coord)
    (path : List String) :
    ((LawnmowerSim.init name gh gw rocks start).run path).pos_history.length =
      1 + (LawnmowerSim.init name gh gw rocks start).movesExecuted path ∧
    ((LawnmowerSim.init name gh gw rocks start).run path).visited_cells.length ≤
      ((LawnmowerSim.init name gh gw rocks start).run path).pos_history.length ∧
    (((LawnmowerSim.init name gh gw rocks start).run path).did_mower_crash = true →
      ((LawnmowerSim.init name gh gw rocks start).run path).pos_history.getLast? =
        some (((LawnmowerSim.init name gh gw rocks start).run path).last_pos) ∧
      (((LawnmowerSim.init name gh gw rocks start).run path).last_pos ∈
          ((LawnmowerSim.init name gh gw rocks start).run path).visited_cells →
        ((LawnmowerSim.init name gh gw rocks start).run path).last_pos ∈
          (LawnmowerSim.init name gh gw rocks start).visited_cells)) ∧
    (inBounds gh gw start = true → start ∉ buildValidRocks gh gw rocks →
      ((LawnmowerSim.init name gh gw rocks start).run path).did_mower_crash = true →
      ((LawnmowerSim.init name gh gw rocks start).run path).last_pos ∉
        ((LawnmowerSim.init name gh gw rocks start).run path).visited_cells) := by
  refine ⟨?_, ?_, ?_, ?_⟩
  · have hlen := run_history_length (LawnmowerSim.init name gh gw rocks start) path
    have h1 : (LawnmowerSim.init name gh gw rocks start).pos_history.length = 1 := rfl
    rw [hlen, h1]
  · exact run_visited_le_history (LawnmowerSim.init name gh gw rocks start) path
      (le_refl 1)
  · intro hc
    constructor
    · exact run_getLast (LawnmowerSim.init name gh gw rocks start) path rfl
    · intro hmem
      have hclass := run_crash_classify (LawnmowerSim.init name gh gw rocks start)
        path rfl hc
      rcases run_visited_mem (LawnmowerSim.init name gh gw rocks start) path hmem
        with h | h
      · exact h
      · rcases hclass with hrock | hoob
        · exact absurd hrock h.2
        · rw [h.1] at hoob
          cases hoob
  · intro hsb hsr hc hmem
    have hInv := run_inv (LawnmowerSim.init name gh gw rocks start) path
      (init_inv hsb hsr)
    have hclass := run_crash_classify (LawnmowerSim.init name gh gw rocks start)
      path rfl hc
    obtain ⟨hb, hnr⟩ := hInv.vis_ok _ hmem
    obtain ⟨-, b2, b3, -, b5, -, -⟩ :=
      run_config (LawnmowerSim.init name gh gw rocks start) path
    rw [b2, b3] at hb
    rw [b5] at hnr
    rcases hclass with hrock | hoob
    · exact hnr hrock
    · rw [hb] at hoob
      cases hoob

/-- Witness for C3: scenario C (5x5, rock at (1,1), moves [down,right])
crashes into the rock; all four parts instantiate there. -/
theorem pos_history_audit_witness :
    ((LawnmowerSim.init ("w3") 5 5 [((1 : Int), (1 : Int))] ((0 : Int), (0 : Int))).run
        [("down"), ("right")]).pos_history.length =
      1 + (LawnmowerSim.init ("w3") 5 5 [((1 : Int), (1 : Int))]
        ((0 : Int), (0 : Int))).movesExecuted [("down"), ("right")] ∧
    ((LawnmowerSim.init ("w3") 5 5 [((1 : Int), (1 : Int))] ((0 : Int), (0 : Int))).run
        [("down"), ("right")]).visited_cells.length ≤
      ((LawnmowerSim.init ("w3") 5 5 [((1 : Int), (1 : Int))] ((0 : Int), (0 : Int))).run
        [("down"), ("right")]).pos_history.length ∧
    ((LawnmowerSim.init ("w3") 5 5 [((1 : Int), (1 : Int))] ((0 : Int), (0 : Int))).run
        [("down"), ("right")]).pos_history.getLast? =
      some (((LawnmowerSim.init ("w3") 5 5 [((1 : Int), (1 : Int))]
        ((0 : Int), (0 : Int))).run [("down"), ("right")]).last_pos) ∧
    ((LawnmowerSim.init ("w3") 5 5 [((1 : Int), (1 : Int))] ((0 : Int), (0 : Int))).run
        [("down"), ("right")]).last_pos ∉
      ((LawnmowerSim.init ("w3") 5 5 [((1 : Int), (1 : Int))] ((0 : Int), (0 : Int))).run
        [("down"), ("right")]).visited_cells :=
  ⟨(pos_history_audit ("w3") 5 5 [((1 : Int), (1 : Int))] ((0 : Int), (0 : Int))
      [("down"), ("right")]).1,
   (pos_history_audit ("w3") 5 5 [((1 : Int), (1 : Int))] ((0 : Int), (0 : Int))
      [("down"), ("right")]).2.1,
   ((pos_history_audit ("w3") 5 5 [((1 : Int), (1 : Int))] ((0 : Int), (0 : Int))
      [("down"), ("right")]).2.2.1 (by decide)).1,
   (pos_history_audit ("w3") 5 5 [((1 : Int), (1 : Int))] ((0 : Int), (0 : Int))
      [("down"), ("right")]).2.2.2 (by decide) (by decide) (by decide)⟩

/-- Claim C5: from a not-yet-crashed engine, a recognized direction token
makes `move` return false exactly when the candidate next coordinate (the
current position plus the direction's unit offset) is a valid rock or out
of bounds; a rock collision sets `crash_reason` to "Crashed into Rock", an
out-of-bounds candidate to "Crashed into Fence", and otherwise `move`
returns true with `crash_reason` still "None". -/
theorem move_failure_classification (s : LawnmowerSim) (m : String)
    (hflag : s.did_mower_crash = false)
    (hreason : s.crash_reason = "None")
    (hm : m = "up" ∨ m = "down" ∨ m = "left" ∨ m = "right") :
    ((s.move m).2 = false ↔
      (moveOffset m s.last_pos ∈ s.valid_rocks ∨
        inBounds s.grid_height s.grid_width (moveOffset m s.last_pos) = false)) ∧
    (moveOffset m s.last_pos ∈ s.valid_rocks →
      (s.move m).1.crash_reason = "Crashed into Rock") ∧
    (moveOffset m s.last_pos ∉ s.valid_rocks →
      inBounds s.grid_height s.grid_width (moveOffset m s.last_pos) = false →
      (s.move m).1.crash_reason = "Crashed into Fence") ∧
    (moveOffset m s.last_pos ∉ s.valid_rocks →
      inBounds s.grid_height s.grid_width (moveOffset m s.last_pos) = true →
      ((s.move m).2 = true ∧ (s.move m).1.crash_reason = "None")) := by
  by_cases h1 : moveOffset m s.last_pos ∈ s.valid_rocks
  · rw [move_rock h1]
    refine ⟨?_, fun _ => rfl, fun hn _ => absurd h1 hn, fun hn _ => absurd h1 hn⟩
    simp [h1]
  · by_cases h2 : inBounds s.grid_height s.grid_width (moveOffset m s.last_pos) = true
    · rw [move_legal h1 h2]
      refine ⟨?_, fun hmem => absurd hmem h1, fun _ hf => ?_, fun _ _ => ⟨?_, hreason⟩⟩
      · simp [hflag, h1, h2]
      · rw [h2] at hf
        cases hf
      · rw [hflag]
        rfl
    · have h2f : inBounds s.grid_height s.grid_width (moveOffset m s.last_pos)
          = false := by
        simpa using h2
      rw [move_fence h1 h2f]
      refine ⟨?_, fun hmem => absurd hmem h1, fun _ _ => rfl, fun _ ht => ?_⟩
      · simp [h2f]
      · rw [ht] at h2f
        cases h2f

/-- Witness for C5: a legal "down" move on a fresh 5x5 engine. -/
theorem move_failure_classification_witness :
    (LawnmowerSim.init ("w5") 5 5 [] ((0 : Int), (0 : Int))).did_mower_crash = false ∧
    (LawnmowerSim.init ("w5") 5 5 [] ((0 : Int), (0 : Int))).crash_reason = "None" ∧
    (((LawnmowerSim.init ("w5") 5 5 [] ((0 : Int), (0 : Int))).move ("down")).2 = false ↔
      (moveOffset ("down")
          (LawnmowerSim.init ("w5") 5 5 [] ((0 : Int), (0 : Int))).last_pos ∈
        (LawnmowerSim.init ("w5") 5 5 [] ((0 : Int), (0 : Int))).valid_rocks ∨
       inBounds (LawnmowerSim.init ("w5") 5 5 [] ((0 : Int), (0 : Int))).grid_height
          (LawnmowerSim.init ("w5") 5 5 [] ((0 : Int), (0 : Int))).grid_width
          (moveOffset ("down")
            (LawnmowerSim.init ("w5") 5 5 [] ((0 : Int), (0 : Int))).last_pos)
          = false)) ∧
    ((LawnmowerSim.init ("w5") 5 5 [] ((0 : Int), (0 : Int))).move ("down")).2 = true ∧
    ((LawnmowerSim.init ("w5") 5 5 [] ((0 : Int), (0 : Int))).move
        ("down")).1.crash_reason = "None" :=
  ⟨rfl, rfl,
   (move_failure_classification (LawnmowerSim.init ("w5") 5 5 [] ((0 : Int), (0 : Int)))
      ("down") rfl rfl (Or.inr (Or.inl rfl))).1,
   ((move_failure_classification (LawnmowerSim.init ("w5") 5 5 [] ((0 : Int), (0 : Int)))
      ("down") rfl rfl (Or.inr (Or.inl rfl))).2.2.2 (by decide) (by decide)).1,
   ((move_failure_classification (LawnmowerSim.init ("w5") 5 5 [] ((0 : Int), (0 : Int)))
      ("down") rfl rfl (Or.inr (Or.inl rfl))).2.2.2 (by decide) (by decide)).2⟩

/-- Claim C8: on a not-yet-crashed engine, an unrecognized move token
leaves the current position unchanged, appends a duplicate of the prior
position to `pos_history`, and performs the rock/fence check against that
unchanged position; for an in-bounds, non-rock position the call returns
true and records no crash. -/
theorem move_unrecognized_token (s : LawnmowerSim) (m : String)
    (hflag : s.did_mower_crash = false)
    (hm : ¬(m = "up" ∨ m = "down" ∨ m = "left" ∨ m = "right")) :
    (s.move m).1.last_pos = s.last_pos ∧
    (s.move m).1.pos_history = s.pos_history ++ [s.last_pos] ∧
    ((s.move m).2 = false ↔
      (s.last_pos ∈ s.valid_rocks ∨
        inBounds s.grid_height s.grid_width s.last_pos = false)) ∧
    (inBounds s.grid_height s.grid_width s.last_pos = true →
      s.last_pos ∉ s.valid_rocks →
      ((s.move m).2 = true ∧ (s.move m).1.did_mower_crash = false)) := by
  push_neg at hm
  obtain ⟨hu, hd, hl, hr⟩ := hm
  have hoff : moveOffset m s.last_pos = s.last_pos := by
    unfold moveOffset
    rw [if_neg hu, if_neg hd, if_neg hl, if_neg hr]
  refine ⟨?_, ?_, ?_, ?_⟩
  · rw [move_last, hoff]
  · rw [move_history, hoff]
  · by_cases h1 : s.last_pos ∈ s.valid_rocks
    · rw [move_rock (by rw [hoff]; exact h1)]
      simp [h1]
    · by_cases h2 : inBounds s.grid_height s.grid_width s.last_pos = true
      · rw [move_legal (by rw [hoff]; exact h1) (by rw [hoff]; exact h2)]
        simp [hflag, h1, h2]
      · have h2f : inBounds s.grid_height s.grid_width s.last_pos = false := by
          simpa using h2
        rw [move_fence (by rw [hoff]; exact h1) (by rw [hoff]; exact h2f)]
        simp [h2f]
  · intro hb hnr
    rw [move_legal (by rw [hoff]; exact hnr) (by rw [hoff]; exact hb)]
    constructor
    · rw [hflag]
      rfl
    · exact hflag

/-- Witness for C8: the token "jump" on a fresh 1x1 engine at (0,0). -/
theorem move_unrecognized_token_witness :
    ((LawnmowerSim.init ("w8") 1 1 [] ((0 : Int), (0 : Int))).move ("jump")).1.last_pos
      = (LawnmowerSim.init ("w8") 1 1 [] ((0 : Int), (0 : Int))).last_pos ∧
    ((LawnmowerSim.init ("w8") 1 1 [] ((0 : Int), (0 : Int))).move ("jump")).1.pos_history
      = (LawnmowerSim.init ("w8") 1 1 [] ((0 : Int), (0 : Int))).pos_history ++
        [(LawnmowerSim.init ("w8") 1 1 [] ((0 : Int), (0 : Int))).last_pos] ∧
    ((LawnmowerSim.init ("w8") 1 1 [] ((0 : Int), (0 : Int))).move ("jump")).2 = true ∧
    ((LawnmowerSim.init ("w8") 1 1 [] ((0 : Int),
        (0 : Int))).move ("jump")).1.did_mower_crash = false :=
  ⟨(move_unrecognized_token (LawnmowerSim.init ("w8") 1 1 [] ((0 : Int), (0 : Int)))
      ("jump") rfl (by decide)).1,
   (move_unrecognized_token (LawnmowerSim.init ("w8") 1 1 [] ((0 : Int), (0 : Int)))
      ("jump") rfl (by decide)).2.1,
   ((move_unrecognized_token (LawnmowerSim.init ("w8") 1 1 [] ((0 : Int), (0 : Int)))
      ("jump") rfl (by decide)).2.2.2 (by decide) (by decide)).1,
   ((move_unrecognized_token (LawnmowerSim.init ("w8") 1 1 [] ((0 : Int), (0 : Int)))
      ("jump") rfl (by decide)).2.2.2 (by decide) (by decide)).2⟩

/-- Claim C6, counterexample: a duplicated in-bounds obstacle collapses to
a single dict key, so `valid_rocks` is shorter than the in-bounds-filtered
input list; the claimed "input order with out-of-bounds ones removed" shape
fails at this input. -/
theorem valid_rocks_duplicate_cex :
    (LawnmowerSim.init ("c6") 2 2 [((0 : Int), (0 : Int)), ((0 : Int), (0 : Int))]
        ((0 : Int), (0 : Int))).valid_rocks ≠
      List.filter (fun r => inBounds 2 2 r)
        [((0 : Int), (0 : Int)), ((0 : Int), (0 : Int))] := by
  decide

/-- Claim C6 (amended): `valid_rocks` holds exactly the in-bounds input
obstacle coordinates with duplicates collapsed to their first occurrence;
when the in-bounds input coordinates are pairwise distinct it equals the
input list with out-of-bounds entries removed, in input order.  Its length
never exceeds the input length, `total_grass_squares` equals the grid area
minus the number of valid rocks, and both fields are unchanged by `move`
and by `execute_path`. -/
theorem valid_rocks_characterization
    (name : String) (gh gw : Int) (rocks : List Coord) (start : Coord)
    (path : List String) (m : String) :
    (∀ p : Coord, p ∈ (LawnmowerSim.init name gh gw rocks start).valid_rocks ↔
      (p ∈ rocks ∧ inBounds gh gw p = true)) ∧
    ((rocks.filter (fun r => inBounds gh gw r)).Nodup →
      (LawnmowerSim.init name gh gw rocks start).valid_rocks =
        rocks.filter (fun r => inBounds gh gw r)) ∧
    (LawnmowerSim.init name gh gw rocks start).valid_rocks.length ≤ rocks.length ∧
    (LawnmowerSim.init name gh gw rocks start).total_grass_squares =
      gw * gh - ((LawnmowerSim.init name gh gw rocks start).valid_rocks.length : Int) ∧
    ((LawnmowerSim.init name gh gw rocks start).move m).1.total_grass_squares =
      (LawnmowerSim.init name gh gw rocks start).total_grass_squares ∧
    ((LawnmowerSim.init name gh gw rocks start).move m).1.valid_rocks =
      (LawnmowerSim.init name gh gw rocks start).valid_rocks ∧
    ((LawnmowerSim.init name gh gw rocks start).run path).total_grass_squares =
      (LawnmowerSim.init name gh gw rocks start).total_grass_squares ∧
    ((LawnmowerSim.init name gh gw rocks start).run path).valid_rocks =
      (LawnmowerSim.init name gh gw rocks start).valid_rocks := by
  obtain ⟨-, -, -, -, c5, c6, -⟩ :=
    move_config (LawnmowerSim.init name gh gw rocks start) m
  obtain ⟨-, -, -, -, r5, r6, -⟩ :=
    run_config (LawnmowerSim.init name gh gw rocks start) path
  exact ⟨fun p => mem_buildValidRocks, fun h => buildValidRocks_eq_filter rocks h,
    buildValidRocks_length rocks, rfl, c6, c5, r6, r5⟩

/-- Witness for C6: a 2x2 grid with one in-bounds and one out-of-bounds
obstacle, one move executed. -/
theorem valid_rocks_characterization_witness :
    (((1 : Int), (1 : Int)) ∈ (LawnmowerSim.init ("w6") 2 2
        [((1 : Int), (1 : Int)), ((5 : Int), (5 : Int))] ((0 : Int), (0 : Int))).valid_rocks ↔
      (((1 : Int), (1 : Int)) ∈ [((1 : Int), (1 : Int)), ((5 : Int), (5 : Int))] ∧
        inBounds 2 2 ((1 : Int), (1 : Int)) = true)) ∧
    (LawnmowerSim.init ("w6") 2 2 [((1 : Int), (1 : Int)), ((5 : Int), (5 : Int))]
        ((0 : Int), (0 : Int))).valid_rocks =
      List.filter (fun r => inBounds 2 2 r)
        [((1 : Int), (1 : Int)), ((5 : Int), (5 : Int))] ∧
    (LawnmowerSim.init ("w6") 2 2 [((1 : Int), (1 : Int)), ((5 : Int), (5 : Int))]
        ((0 : Int), (0 : Int))).valid_rocks.length ≤
      ([((1 : Int), (1 : Int)), ((5 : Int), (5 : Int))] : List Coord).length ∧
    ((LawnmowerSim.init ("w6") 2 2 [((1 : Int), (1 : Int)), ((5 : Int), (5 : Int))]
        ((0 : Int), (0 : Int))).run [("down")]).total_grass_squares =
      (LawnmowerSim.init ("w6") 2 2 [((1 : Int), (1 : Int)), ((5 : Int), (5 : Int))]
        ((0 : Int), (0 : Int))).total_grass_squares :=
  ⟨(valid_rocks_characterization ("w6") 2 2
      [((1 : Int), (1 : Int)), ((5 : Int), (5 : Int))] ((0 : Int), (0 : Int))
      [("down")] ("down")).1 ((1 : Int), (1 : Int)),
   (valid_rocks_characterization ("w6") 2 2
      [((1 : Int), (1 : Int)), ((5 : Int), (5 : Int))] ((0 : Int), (0 : Int))
      [("down")] ("down")).2.1 (by decide),
   (valid_rocks_characterization ("w6") 2 2
      [((1 : Int), (1 : Int)), ((5 : Int), (5 : Int))] ((0 : Int), (0 : Int))
      [("down")] ("down")).2.2.1,
   (valid_rocks_characterization ("w6") 2 2
      [((1 : Int), (1 : Int)), ((5 : Int), (5 : Int))] ((0 : Int), (0 : Int))
      [("down")] ("down")).2.2.2.2.2.2.1⟩

end Lawnmower
